import Mathlib

/-!
# Verification of the speedtest-api service core (src/main.py)

Shallow embedding of the core logic of `src/main.py`:

* `is_private_ip` and the CPython `ipaddress.ip_address(...).is_private`
  semantics it delegates to (string parsing of IPv4/IPv6 literals and the
  IANA special-purpose range membership test, CPython >= 3.12.4 registry);
* `get_network_details` / the `/api/speedtest/network` endpoint, with the
  two external HTTP lookups modelled as an oracle plus an explicit log of
  the calls actually made;
* the `generate` chunk loop of `/api/speedtest/download` and its
  `Content-Length` header;
* the read loop of `/api/speedtest/upload` and its response dictionary;
* the Throughput Reporter `compute_speed` contract (spec section 4.6),
  which has no counterpart in `src/main.py` and is therefore modelled
  from the spec.

Python byte strings are modelled by their lengths (`os.urandom(n)` and
`file.read(n)` return exactly the requested / remaining number of bytes);
Python floats by exact rationals; Python exceptions by `Option`.
-/

/-! ## Python string primitives

`str.split(sep)` for a single-character separator, `str.strip()`, and the
character classes used by CPython's `ipaddress` parser.  These are modelled
on `List Char` (the data of a `String`) by structural recursion so that all
definitions evaluate inside the kernel. -/

/-- Python `str.split(c)` for a one-character separator: splits at every
occurrence of `c`, keeping empty fragments (`''.split(c) == ['']`). -/
def splitChar (c : Char) : List Char → List (List Char)
  | [] => [[]]
  | x :: xs =>
    match splitChar c xs with
    | [] => [[x]]
    | y :: ys => if x = c then [] :: y :: ys else (x :: y) :: ys

/-- Whitespace stripped by Python `str.strip()` (the ASCII whitespace
characters; the claims only involve ASCII input). -/
def isPySpace (c : Char) : Bool :=
  c.toNat = 32 || c.toNat = 9 || c.toNat = 10 || c.toNat = 13 ||
  c.toNat = 11 || c.toNat = 12

/-- Python `str.strip()`: drop leading and trailing whitespace. -/
def pyStrip (l : List Char) : List Char :=
  ((l.dropWhile isPySpace).reverse.dropWhile isPySpace).reverse

/-- ASCII decimal digit (`octet_str.isascii() and octet_str.isdigit()` in
CPython's `_parse_octet`). -/
def isDigitChar (c : Char) : Bool :=
  48 ≤ c.toNat && c.toNat ≤ 57

/-- ASCII hexadecimal digit (CPython `_HEX_DIGITS`). -/
def isHexChar (c : Char) : Bool :=
  (48 ≤ c.toNat && c.toNat ≤ 57) || (97 ≤ c.toNat && c.toNat ≤ 102) ||
  (65 ≤ c.toNat && c.toNat ≤ 70)

/-- Numeric value of a hexadecimal digit character. -/
def hexVal (c : Char) : Nat :=
  if 48 ≤ c.toNat && c.toNat ≤ 57 then c.toNat - 48
  else if 97 ≤ c.toNat then c.toNat - 87
  else c.toNat - 55

/-! ## CPython `ipaddress` literal parsing

`ipaddress.ip_address(s)` tries `IPv4Address(s)` first and falls back to
`IPv6Address(s)`; both raise `ValueError` (modelled by `none`) on bad input.
The embedding follows CPython `Lib/ipaddress.py` step by step. -/

/-- CPython `IPv4Address._parse_octet`: a nonempty all-ASCII-digit string of
at most 3 characters, value at most 255, with no leading zero. -/
def parseOctet (l : List Char) : Option Nat :=
  match l with
  | [] => none
  | c :: rest =>
    if ¬ (c :: rest).all isDigitChar then none
    else if (c :: rest).length > 3 then none
    else
      let n := (c :: rest).foldl (fun a d => a * 10 + (d.toNat - 48)) 0
      if n > 255 then none
      else if c = '0' ∧ rest ≠ [] then none
      else some n

/-- CPython `IPv4Address`: `__init__` first rejects any `/` in the string,
then `_ip_int_from_string` requires exactly four dot-separated octets,
assembled big-endian into a 32-bit value.  (For IPv4 the `/` rejection is
already implied by the all-digits octet check; it is kept for fidelity to
the source.) -/
def parseIPv4Chars (l : List Char) : Option Nat :=
  if l.contains '/' then none
  else
    match (splitChar '.' l).mapM parseOctet with
    | some [a, b, c, d] => some (((a * 256 + b) * 256 + c) * 256 + d)
    | _ => none

/-- CPython `IPv6Address._parse_hextet`: between one and four hexadecimal
digits (an empty fragment makes `int('', 16)` raise). -/
def parseHextet (l : List Char) : Option Nat :=
  match l with
  | [] => none
  | c :: rest =>
    if ¬ (c :: rest).all isHexChar then none
    else if (c :: rest).length > 4 then none
    else some ((c :: rest).foldl (fun a d => a * 16 + hexVal d) 0)

/-- Lowercase hexadecimal rendering used by CPython's `'%x' %` formatting
when an embedded dotted-quad is rewritten into two hextets. -/
def hexChars (n : Nat) : List Char :=
  Nat.toDigits 16 n

/-- Assemble the list of colon-separated fragments into a 128-bit value,
following CPython `IPv6Address._ip_int_from_string` after the embedded-IPv4
rewrite: at most 9 fragments, at most one empty interior fragment (the `::`
gap), leading/trailing empty fragments only next to the gap, and the gap
covering at least one zero hextet. -/
def ipv6FromParts (parts : List (List Char)) : Option Nat :=
  let n := parts.length
  if n > 9 then none
  else
    match (List.range n).filter
        (fun i => 1 ≤ i && i + 1 < n && parts.getD i ['?'] == []) with
    | [] =>
      if n ≠ 8 then none
      else if parts.getD 0 [] == [] then none
      else if parts.getD 7 [] == [] then none
      else do
        let vals ← parts.mapM parseHextet
        some (vals.foldl (fun a v => a * 65536 + v) 0)
    | [i] => do
      let hi ← if parts.getD 0 [] == [] then
          (if i = 1 then some 0 else none)
        else some i
      let lo ← if parts.getD (n - 1) [] == [] then
          (if i = n - 2 then some 0 else none)
        else some (n - 1 - i)
      if hi + lo ≥ 8 then none
      else do
        let hiVals ← (parts.take hi).mapM parseHextet
        let loVals ← (parts.drop (n - lo)).mapM parseHextet
        let x := hiVals.foldl (fun a v => a * 65536 + v) 0
        some (loVals.foldl (fun a v => a * 65536 + v)
          (x * 65536 ^ (8 - (hi + lo))))
    | _ => none

/-- CPython `IPv6Address._ip_int_from_string` for the address part (scope id
already removed): at least three colon-separated fragments, with a trailing
dotted-quad rewritten into two hextets before assembly. -/
def parseIPv6Core (l : List Char) : Option Nat :=
  let parts := splitChar ':' l
  if parts.length < 3 then none
  else
    match parts.getLast? with
    | none => none
    | some last =>
      if last.contains '.' then
        match parseIPv4Chars last with
        | none => none
        | some v =>
          ipv6FromParts
            (parts.dropLast ++ [hexChars (v / 65536), hexChars (v % 65536)])
      else ipv6FromParts parts

/-- CPython `IPv6Address.__init__`: first reject any `/` anywhere in the
full string (`if '/' in addr_str: raise`, before scope-id splitting); then
`addr, sep, scope_id = s.partition('%')`, where a scope id, when present,
must be nonempty and must not itself contain `%`. -/
def parseIPv6Chars (l : List Char) : Option Nat :=
  if l.contains '/' then none
  else
    match splitChar '%' l with
    | [a] => parseIPv6Core a
    | [a, scope] => if scope = [] then none else parseIPv6Core a
    | _ => none

/-- A parsed IP address: a 32-bit IPv4 value or a 128-bit IPv6 value. -/
inductive IPAddr where
  | v4 (v : Nat)
  | v6 (v : Nat)
deriving DecidableEq, Repr

/-- CPython `ipaddress.ip_address`: try IPv4 first, then IPv6; `none` models
the `ValueError` raised when neither parser accepts the string. -/
def ip_address (s : String) : Option IPAddr :=
  match parseIPv4Chars s.data with
  | some v => some (.v4 v)
  | none => (parseIPv6Chars s.data).map .v6

example : parseIPv4Chars "192.168.1.5".data = some 0xC0A80105 := by decide
example : ip_address "10.0.0.1" = some (.v4 0x0A000001) := by decide
example : ip_address "1.2.3.256" = none := by decide
example : ip_address "01.2.3.4" = none := by decide
example : ip_address "garbage" = none := by decide
example : ip_address "::1" = some (.v6 1) := by decide
example : ip_address "fe80::1%eth0" = some (.v6 (0xFE80 * 2 ^ 112 + 1)) := by
  decide
example : ip_address "::ffff:192.168.0.1" = some (.v6 0xFFFFC0A80001) := by
  decide
example : ip_address "1:2:3:4:5:6:7:8" =
    some (.v6 (((((((0x1 * 65536 + 2) * 65536 + 3) * 65536 + 4) * 65536 + 5) *
      65536 + 6) * 65536 + 7) * 65536 + 8)) := by decide
example : ip_address ":::" = none := by decide
example : ip_address ":1::2" = none := by decide
example : ip_address "1::2" = some (.v6 (65536 ^ 7 + 2)) := by decide
example : ip_address "fe80::1%" = none := by decide
example : ip_address "::" = some (.v6 0) := by decide
example : ip_address "fe80::1%eth0/64" = none := by decide
example : ip_address "fe80::1/64" = none := by decide
example : ip_address "1.2.3.4/24" = none := by decide
example : ip_address "1.2.3.4.5" = none := by decide
example : ip_address "" = none := by decide

/-! ## CPython `is_private`

Membership in the IANA special-purpose registries, as hardcoded in CPython
`Lib/ipaddress.py` (`_private_networks` / `_private_networks_exceptions`,
CPython >= 3.12.4).  An address is private when it lies in one of the
private networks and in none of the exception networks; an IPv4-mapped IPv6
address delegates to the IPv4 test of its low 32 bits. -/

/-- Membership of a 32-bit value in an IPv4 network given as base address
and prefix length. -/
def inNet4 (v base plen : Nat) : Bool :=
  v / 2 ^ (32 - plen) == base / 2 ^ (32 - plen)

/-- Membership of a 128-bit value in an IPv6 network given as base address
and prefix length. -/
def inNet6 (v base plen : Nat) : Bool :=
  v / 2 ^ (128 - plen) == base / 2 ^ (128 - plen)

/-- CPython `IPv4Address.is_private`: the `_private_networks` list
(0.0.0.0/8, 10.0.0.0/8, 127.0.0.0/8, 169.254.0.0/16, 172.16.0.0/12,
192.0.0.0/24, 192.0.0.170/31, 192.0.2.0/24, 192.168.0.0/16, 198.18.0.0/15,
198.51.100.0/24, 203.0.113.0/24, 240.0.0.0/4, 255.255.255.255/32) minus the
exceptions 192.0.0.9/32 and 192.0.0.10/32.  Note that the carrier-grade NAT
block 100.64.0.0/10 is deliberately absent: CPython treats it as neither
private nor global. -/
def ipv4IsPrivate (v : Nat) : Bool :=
  (inNet4 v 0x00000000 8 || inNet4 v 0x0A000000 8 || inNet4 v 0x7F000000 8 ||
   inNet4 v 0xA9FE0000 16 || inNet4 v 0xAC100000 12 || inNet4 v 0xC0000000 24 ||
   inNet4 v 0xC00000AA 31 || inNet4 v 0xC0000200 24 || inNet4 v 0xC0A80000 16 ||
   inNet4 v 0xC6120000 15 || inNet4 v 0xC6336400 24 || inNet4 v 0xCB007100 24 ||
   inNet4 v 0xF0000000 4 || inNet4 v 0xFFFFFFFF 32) &&
  !(inNet4 v 0xC0000009 32 || inNet4 v 0xC000000A 32)

/-- CPython `IPv6Address.is_private`: an IPv4-mapped address
(`::ffff:a.b.c.d`) delegates to the IPv4 test; otherwise the
`_private_networks` list (::1/128, ::/128, ::ffff:0:0/96, 64:ff9b:1::/48,
100::/64, 2001::/23, 2001:db8::/32, 2002::/16, fc00::/7, fe80::/10) minus
the exceptions (2001:1::1/128, 2001:1::2/128, 2001:3::/32, 2001:4:112::/48,
2001:20::/28, 2001:30::/28). -/
def ipv6IsPrivate (v : Nat) : Bool :=
  if v / 2 ^ 32 == 0xFFFF then ipv4IsPrivate (v % 2 ^ 32)
  else
    (inNet6 v 1 128 || inNet6 v 0 128 || inNet6 v (0xFFFF * 2 ^ 32) 96 ||
     inNet6 v (0x0064FF9B0001 * 2 ^ 80) 48 || inNet6 v (0x0100 * 2 ^ 112) 64 ||
     inNet6 v (0x2001 * 2 ^ 112) 23 || inNet6 v (0x20010DB8 * 2 ^ 96) 32 ||
     inNet6 v (0x2002 * 2 ^ 112) 16 || inNet6 v (0xFC00 * 2 ^ 112) 7 ||
     inNet6 v (0xFE80 * 2 ^ 112) 10) &&
    !(inNet6 v (0x20010001 * 2 ^ 96 + 1) 128 ||
      inNet6 v (0x20010001 * 2 ^ 96 + 2) 128 ||
      inNet6 v (0x20010003 * 2 ^ 96) 32 ||
      inNet6 v (0x200100040112 * 2 ^ 80) 48 ||
      inNet6 v (0x20010020 * 2 ^ 96) 28 ||
      inNet6 v (0x20010030 * 2 ^ 96) 28)

/-- `addr.is_private` for a parsed address. -/
def addrIsPrivate : IPAddr → Bool
  | .v4 v => ipv4IsPrivate v
  | .v6 v => ipv6IsPrivate v

/-- `is_private_ip` (src/main.py lines 30-35): try
`ipaddress.ip_address(ip).is_private`, returning `False` on `ValueError`. -/
def is_private_ip (ip : String) : Bool :=
  match ip_address ip with
  | some a => addrIsPrivate a
  | none => false

example : is_private_ip "192.168.1.5" = true := by decide
example : is_private_ip "10.0.0.1" = true := by decide
example : is_private_ip "127.0.0.1" = true := by decide
example : is_private_ip "8.8.8.8" = false := by decide
example : is_private_ip "100.64.0.1" = false := by decide
example : is_private_ip "::1" = true := by decide
example : is_private_ip "fd12::1" = true := by decide
example : is_private_ip "fe80::1" = true := by decide
example : is_private_ip "2607:f8b0::1" = false := by decide
example : is_private_ip "not an ip" = false := by decide
example : is_private_ip "::ffff:10.0.0.1" = true := by decide
example : is_private_ip "fe80::1%eth0/64" = false := by decide

/-! ## Client identity resolution and network details

`get_network_details` (src/main.py lines 37-91).  The ambient effects are
passed in explicitly: the server's hostname and resolved address (from
`socket`), the transport-layer peer address and the request headers, and an
oracle for the `ip-api.com` geolocation request.  The result also carries
the list of external HTTP calls the code performed, so that theorems can
talk about which lookups were (not) attempted. -/

/-- Client IP resolution (src/main.py lines 42-47): start from the
transport-layer peer address; when the `x-forwarded-for` header is present
and nonempty (Python truthiness of the header string), replace it with
`forwarded_for.split(",")[0].strip()`. -/
def resolve_client_ip (peer : String) (xff : Option String) : String :=
  match xff with
  | none => peer
  | some f =>
    if f = "" then peer
    else String.mk (pyStrip ((splitChar ',' f.data).headD f.data))

/-- The `location` dictionary of the response. `region` and `timezone` are
optional because the default location dictionary omits them. -/
structure Location where
  country : String
  city : String
  isp : String
  region : Option String
  timezone : Option String
deriving DecidableEq, Repr

/-- The default location (src/main.py lines 62-66). -/
def defaultLocation : Location :=
  { country := "Unknown", city := "Unknown", isp := "Unknown",
    region := none, timezone := none }

/-- The `server` part of the network-details response. -/
structure ServerInfo where
  hostname : String
  ip : String
  is_private : Bool
deriving DecidableEq, Repr

/-- The `client` part of the network-details response. -/
structure ClientInfo where
  ip : String
  public_ip : Option String
  is_private : Bool
  location : Location
deriving DecidableEq, Repr

/-- The network-details response body. -/
structure NetworkInfo where
  server : ServerInfo
  client : ClientInfo
deriving DecidableEq, Repr

/-- The JSON body returned by `ip-api.com`, as consumed through
`ip_info.get(...)`: every field may be absent. -/
structure GeoResponse where
  status : Option String
  country : Option String
  city : Option String
  isp : Option String
  regionName : Option String
  timezone : Option String
deriving DecidableEq, Repr

/-- Outcome of the `requests.get("http://ip-api.com/json/...").json()` call:
either some exception (timeout, connection error, malformed JSON, ... --
all swallowed by the bare `except:`) or a decoded response body. -/
inductive GeoOutcome where
  | exn
  | resp (r : GeoResponse)
deriving DecidableEq, Repr

/-- An external HTTP call made while building the network details.
`echoIP` (a "what is my public IP" echo-service lookup) is vocabulary used
by the spec; `src/main.py` only ever issues `geoLookup` calls. -/
inductive ExtCall where
  | echoIP
  | geoLookup (ip : String)
deriving DecidableEq, Repr

/-- `get_network_details` (src/main.py lines 37-91): resolve the client IP,
derive `public_ip` (the resolved IP itself when not private, else `None`),
build the response with the default location, and, when `public_ip` is
truthy, best-effort enrich the location from the geolocation service,
accepting the result only when `status == 'success'`.  Returns the response
together with the log of external calls made.  (The modelled operations are
total, so the function's outer `except Exception` branch is unreachable
here.) -/
def get_network_details (hostname server_ip peer : String)
    (xff : Option String) (geo : String → GeoOutcome) :
    NetworkInfo × List ExtCall :=
  let client_ip := resolve_client_ip peer xff
  let public_ip := if ¬ is_private_ip client_ip then some client_ip else none
  let base : NetworkInfo :=
    { server :=
        { hostname := hostname, ip := server_ip,
          is_private := is_private_ip server_ip },
      client :=
        { ip := client_ip, public_ip := public_ip,
          is_private := is_private_ip client_ip,
          location := defaultLocation } }
  match public_ip with
  | none => (base, [])
  | some pip =>
    if pip = "" then (base, [])  -- `if public_ip:` Python truthiness
    else
      match geo pip with
      | .exn => (base, [.geoLookup pip])
      | .resp r =>
        if r.status = some "success" then
          ({ base with
              client :=
                { base.client with
                    location :=
                      { country := r.country.getD "Unknown",
                        city := r.city.getD "Unknown",
                        isp := r.isp.getD "Unknown",
                        region := some (r.regionName.getD "Unknown"),
                        timezone := some (r.timezone.getD "Unknown") } } },
            [.geoLookup pip])
        else (base, [.geoLookup pip])

/-- An HTTP reply: status code and body. -/
structure HttpReply (α : Type) where
  status : Nat
  body : α
deriving DecidableEq, Repr

/-- The `/api/speedtest/network` endpoint (src/main.py lines 243-246):
FastAPI serialises the returned dictionary with status 200. -/
def network_info (hostname server_ip peer : String) (xff : Option String)
    (geo : String → GeoOutcome) : HttpReply NetworkInfo × List ExtCall :=
  let r := get_network_details hostname server_ip peer xff geo
  (⟨200, r.1⟩, r.2)

/-! ## Download streaming -/

/-- Lengths of the byte chunks produced by the 256 KiB min-chunking loops:
while bytes remain, emit `min(256 * 1024, remaining)` bytes.  This is the
loop body shared verbatim by `generate` inside `test_download`
(src/main.py lines 206-214, `os.urandom(min(chunk_size, total_bytes -
bytes_sent))`) and by the read loop of `test_upload` (lines 231-234,
`file.read(chunk_size)` returning `min(chunk_size, remaining)` bytes until
the stream is exhausted). -/
def chunkLens (n : Nat) : List Nat :=
  if h : n = 0 then []
  else min (256 * 1024) n :: chunkLens (n - min (256 * 1024) n)
termination_by n
decreasing_by
  have h1 : 0 < min (256 * 1024) n := by
    simp only [Nat.lt_min]
    omega
  omega

/-- The `generate` generator of `test_download` (src/main.py lines 206-214):
`total_bytes = size_mb * 1024 * 1024`, and the `while bytes_sent <
total_bytes` loop runs on the positive part of that (possibly negative)
total. -/
def generate (size_mb : Int) : List Nat :=
  chunkLens (size_mb * 1024 * 1024).toNat

/-- The `/api/speedtest/download` response: streamed chunks plus headers
(src/main.py lines 216-223). -/
structure DownloadResponse where
  chunks : List Nat
  content_length : String
  cache_control : String
  media_type : String
deriving DecidableEq, Repr

/-- `test_download` (src/main.py lines 200-223): stream `generate()` with
`Content-Length: str(size_mb * 1024 * 1024)` and `Cache-Control: no-cache`. -/
def test_download (size_mb : Int) : DownloadResponse :=
  { chunks := generate size_mb,
    content_length := toString (size_mb * 1024 * 1024),
    cache_control := "no-cache",
    media_type := "application/octet-stream" }

/-! ## Upload -/

/-- The `/api/speedtest/upload` response dictionary (src/main.py lines
236-241).  It has exactly these four fields; in particular no
server-computed speed field. -/
structure UploadResponse where
  size_bytes : Nat
  size_mb : ℚ
  server_timestamp : ℚ
  note : String
deriving DecidableEq, Repr

/-- The constant `note` string of the upload response. -/
def uploadNote : String :=
  "Calculate speed on client side: (size_mb * 8) / upload_duration_seconds"

/-- Round-half-to-even to an integer, the rounding of Python's built-in
`round`. -/
def roundHalfEven (q : ℚ) : ℤ :=
  let f := ⌊q⌋
  if q - f < 1 / 2 then f
  else if 1 / 2 < q - f then f + 1
  else if f % 2 = 0 then f else f + 1

/-- Python `round(x, 2)` on exact rationals (floats are modelled as exact
rationals throughout). -/
def pyRound2 (q : ℚ) : ℚ :=
  (roundHalfEven (q * 100) : ℚ) / 100

/-- `test_upload` (src/main.py lines 225-241) on an upload stream of `n`
bytes: the `while chunk := await file.read(chunk_size)` loop accumulates
`size` as the sum of the successive read lengths (`chunkLens n`), and the
response reports the byte count, `round(size / (1024 * 1024), 2)` and the
server timestamp (`time.time()`, passed in as a parameter). -/
def test_upload (n : Nat) (ts : ℚ) : UploadResponse :=
  let size := (chunkLens n).sum
  { size_bytes := size,
    size_mb := pyRound2 ((size : ℚ) / (1024 * 1024)),
    server_timestamp := ts,
    note := uploadNote }

/-- The request body of a POST `/api/speedtest/upload`, as FastAPI's
request handling distinguishes it: a body that fails multipart parsing
(`malformed`), a parsed request -- including an absent body -- without a
usable `file` field (`missingFile`), or a well-formed upload of `n` bytes
(`file n`). -/
inductive UploadBody where
  | malformed
  | missingFile
  | file (n : Nat)
deriving DecidableEq, Repr

/-- The routed POST `/api/speedtest/upload` endpoint.  The handler declares
a required multipart parameter `file: UploadFile` (src/main.py line 226).
Before the handler runs, FastAPI rejects a body that fails multipart
parsing with HTTP 400 ("There was an error parsing the body", the generic
exception path around `request.form()`), and a parsed request that lacks
the required `file` field -- including a request with no body at all --
with an HTTP 422 validation-error response; only a well-formed upload
reaches the handler. -/
def upload_route (body : UploadBody) (ts : ℚ) :
    HttpReply (Option UploadResponse) :=
  match body with
  | .malformed => ⟨400, none⟩
  | .missingFile => ⟨422, none⟩
  | .file n => ⟨200, some (test_upload n ts)⟩

/-! ## Throughput Reporter -/

/-- Modelled from the spec: `compute_speed` (Throughput Reporter, spec
section 4.6).  No server-side speed computation exists in `src/main.py` --
the repository's legacy variants hold it, and `src/main.py` only restates
the formula in the upload response's `note` string.  Spec contract:
`speed_mbps = (size_mb * 8) / duration_sec`, with the degenerate case
`duration_sec <= 0` yielding `0`. -/
def compute_speed (size_mb duration_sec : ℚ) : ℚ :=
  if duration_sec ≤ 0 then 0 else size_mb * 8 / duration_sec

/-! ## Spec-side predicates

Independent restatements of notions the claims quantify over, used to
compare the code's behaviour against the spec's wording. -/

/-- The spec's reading of the forwarded-header override, written
independently of the code: the characters of the header value up to the
first comma, stripped of surrounding whitespace. -/
def firstForwardedToken (f : String) : String :=
  String.mk (pyStrip (f.data.takeWhile (fun x => x != ',')))

/-- The address ranges claim C8 enumerates as private, minus the
carrier-grade NAT block: RFC1918 (10.0.0.0/8, 172.16.0.0/12,
192.168.0.0/16), loopback (127.0.0.0/8, ::1/128), link-local
(169.254.0.0/16, fe80::/10) and IPv6 unique-local (fc00::/7). -/
def claimedPrivateRange : IPAddr → Bool
  | .v4 v => inNet4 v 0x0A000000 8 || inNet4 v 0xAC100000 12 ||
      inNet4 v 0xC0A80000 16 || inNet4 v 0x7F000000 8 || inNet4 v 0xA9FE0000 16
  | .v6 v => inNet6 v 1 128 || inNet6 v (0xFE80 * 2 ^ 112) 10 ||
      inNet6 v (0xFC00 * 2 ^ 112) 7

/-- The carrier-grade NAT block 100.64.0.0/10 named by claim C8. -/
def inCGNAT : IPAddr → Bool
  | .v4 v => inNet4 v 0x64400000 10
  | .v6 _ => false

/-- Globally routable unicast, the spec's "known public address": outside
every special-purpose block of the CPython registry, outside carrier-grade
NAT, and outside multicast. -/
def globallyRoutable : IPAddr → Bool
  | .v4 v =>
      !(inNet4 v 0x00000000 8 || inNet4 v 0x0A000000 8 ||
        inNet4 v 0x7F000000 8 || inNet4 v 0xA9FE0000 16 ||
        inNet4 v 0xAC100000 12 || inNet4 v 0xC0000000 24 ||
        inNet4 v 0xC00000AA 31 || inNet4 v 0xC0000200 24 ||
        inNet4 v 0xC0A80000 16 || inNet4 v 0xC6120000 15 ||
        inNet4 v 0xC6336400 24 || inNet4 v 0xCB007100 24 ||
        inNet4 v 0xF0000000 4 || inNet4 v 0xFFFFFFFF 32) &&
      !inNet4 v 0x64400000 10 && !inNet4 v 0xE0000000 4
  | .v6 v =>
      !(inNet6 v 1 128 || inNet6 v 0 128 || inNet6 v (0xFFFF * 2 ^ 32) 96 ||
        inNet6 v (0x0064FF9B0001 * 2 ^ 80) 48 ||
        inNet6 v (0x0100 * 2 ^ 112) 64 || inNet6 v (0x2001 * 2 ^ 112) 23 ||
        inNet6 v (0x20010DB8 * 2 ^ 96) 32 || inNet6 v (0x2002 * 2 ^ 112) 16 ||
        inNet6 v (0xFC00 * 2 ^ 112) 7 || inNet6 v (0xFE80 * 2 ^ 112) 10) &&
      !inNet6 v (0xFF00 * 2 ^ 112) 8

/-! ## Helper lemmas about the chunk loops -/

theorem chunkLens_zero : chunkLens 0 = [] := by
  rw [chunkLens]
  rfl

theorem chunkLens_step (n : Nat) (h : n ≠ 0) :
    chunkLens n = min (256 * 1024) n :: chunkLens (n - min (256 * 1024) n) := by
  rw [chunkLens]
  simp [h]

theorem chunkLens_eq_nil_iff (n : Nat) : chunkLens n = [] ↔ n = 0 := by
  constructor
  · intro h
    by_contra hn
    rw [chunkLens_step n hn] at h
    exact List.noConfusion h
  · intro h
    rw [h, chunkLens_zero]

/-- The chunk lengths sum to exactly the number of remaining bytes. -/
theorem chunkLens_sum (n : Nat) : (chunkLens n).sum = n := by
  induction n using Nat.strong_induction_on with
  | _ n ih =>
    by_cases h : n = 0
    · rw [h, chunkLens_zero]
      rfl
    · rw [chunkLens_step n h, List.sum_cons, ih (n - min (256 * 1024) n) (by omega)]
      omega

/-- Every chunk is at most 256 KiB. -/
theorem chunkLens_le (n : Nat) : ∀ c ∈ chunkLens n, c ≤ 256 * 1024 := by
  induction n using Nat.strong_induction_on with
  | _ n ih =>
    intro c hc
    by_cases h : n = 0
    · rw [h, chunkLens_zero] at hc
      exact absurd hc (List.not_mem_nil c)
    · rw [chunkLens_step n h] at hc
      rcases List.mem_cons.mp hc with rfl | hc2
      · exact Nat.min_le_left _ _
      · exact ih (n - min (256 * 1024) n) (by omega) c hc2

/-- Every chunk except possibly the last is exactly 256 KiB. -/
theorem chunkLens_dropLast (n : Nat) :
    ∀ c ∈ (chunkLens n).dropLast, c = 256 * 1024 := by
  induction n using Nat.strong_induction_on with
  | _ n ih =>
    intro c hc
    by_cases h : n = 0
    · rw [h, chunkLens_zero] at hc
      exact absurd hc (List.not_mem_nil c)
    · rw [chunkLens_step n h] at hc
      cases hr : chunkLens (n - min (256 * 1024) n) with
      | nil =>
        rw [hr] at hc
        exact absurd hc (List.not_mem_nil c)
      | cons b t =>
        rw [hr, List.dropLast_cons₂] at hc
        rcases List.mem_cons.mp hc with rfl | hc2
        · have hne : n - min (256 * 1024) n ≠ 0 := by
            intro h0
            rw [h0, chunkLens_zero] at hr
            exact List.noConfusion hr
          omega
        · rw [← hr] at hc2
          exact ih (n - min (256 * 1024) n) (by omega) c hc2

/-- Concrete evaluation: one 1 MiB download consists of four 256 KiB
chunks. -/
theorem chunkLens_one_mib :
    chunkLens 1048576 = [262144, 262144, 262144, 262144] := by
  rw [chunkLens_step 1048576 (by norm_num)]
  norm_num
  rw [chunkLens_step 786432 (by norm_num)]
  norm_num
  rw [chunkLens_step 524288 (by norm_num)]
  norm_num
  rw [chunkLens_step 262144 (by norm_num)]
  norm_num
  exact chunkLens_zero

/-! ## Helper lemmas about splitting -/

theorem splitChar_ne_nil (c : Char) (l : List Char) : splitChar c l ≠ [] := by
  cases l with
  | nil => simp [splitChar]
  | cons x xs =>
    simp only [splitChar]
    cases h : splitChar c xs with
    | nil => simp
    | cons y ys =>
      by_cases hx : x = c <;> simp [hx]

/-- The head of a single-character split is the longest comma-free (for
`c = ','`) initial segment, independent of the `headD` default. -/
theorem splitChar_headD (c : Char) (l : List Char) (d : List Char) :
    (splitChar c l).headD d = l.takeWhile (fun x => x != c) := by
  induction l generalizing d with
  | nil => simp [splitChar]
  | cons x xs ih =>
    simp only [splitChar]
    cases h : splitChar c xs with
    | nil => exact absurd h (splitChar_ne_nil c xs)
    | cons y ys =>
      by_cases hx : x = c
      · simp [hx, List.takeWhile]
      · have hy : y = xs.takeWhile (fun x => x != c) := by
          have h2 := ih y
          rw [h] at h2
          simpa using h2
        have hb : (x != c) = true := by simp [hx]
        simp [hx, List.takeWhile, hy, hb]

/-! ## Claim C1: download streaming -/

/-- C1: for every non-negative integer `size_mb`, the download generator in
`test_download` emits a finite sequence of chunks in which every chunk is at
most 262144 bytes, every chunk except possibly the last is exactly 262144
bytes, the chunk lengths sum to exactly `size_mb * 1024 * 1024` (so for
`size_mb = 0` no bytes are emitted), and the `Content-Length` header is the
decimal string of that same total. -/
theorem download_stream_spec (size_mb : Nat) :
    ((test_download (size_mb : Int)).chunks.sum = size_mb * 1024 * 1024) ∧
    (∀ c ∈ (test_download (size_mb : Int)).chunks, c ≤ 262144) ∧
    (∀ c ∈ (test_download (size_mb : Int)).chunks.dropLast, c = 262144) ∧
    ((test_download (0 : Int)).chunks = []) ∧
    ((test_download (size_mb : Int)).content_length =
      toString (((test_download (size_mb : Int)).chunks.sum : Nat) : Int)) := by
  have hn : ((size_mb : Int) * 1024 * 1024).toNat = size_mb * 1024 * 1024 := by
    omega
  have hch : (test_download (size_mb : Int)).chunks =
      chunkLens (size_mb * 1024 * 1024) := by
    simp [test_download, generate, hn]
  have hsum : (test_download (size_mb : Int)).chunks.sum =
      size_mb * 1024 * 1024 := by
    rw [hch, chunkLens_sum]
  refine ⟨hsum, ?_, ?_, ?_, ?_⟩
  · intro c hc
    rw [hch] at hc
    have := chunkLens_le (size_mb * 1024 * 1024) c hc
    omega
  · intro c hc
    rw [hch] at hc
    have := chunkLens_dropLast (size_mb * 1024 * 1024) c hc
    omega
  · simp [test_download, generate, chunkLens_zero]
  · show toString ((size_mb : Int) * 1024 * 1024) = _
    rw [hsum]
    have hcast : ((size_mb : Int) * 1024 * 1024) =
        ((size_mb * 1024 * 1024 : Nat) : Int) := by
      push_cast
      ring
    rw [hcast]

/-- Witness for C1 at `size_mb = 1`: the sum is 1048576 and the bound and
all-but-last hypotheses are discharged at the concrete chunk 262144. -/
theorem download_stream_spec_witness :
    (test_download (1 : Int)).chunks.sum = 1 * 1024 * 1024 ∧
    262144 ≤ 262144 ∧ 262144 = 262144 :=
  ⟨(download_stream_spec 1).1,
   (download_stream_spec 1).2.1 262144
     (by
       have h : (test_download ((1 : Nat) : Int)).chunks = chunkLens 1048576 := by
         simp [test_download, generate]
       rw [h, chunkLens_one_mib]
       norm_num),
   (download_stream_spec 1).2.2.1 262144
     (by
       have h : (test_download ((1 : Nat) : Int)).chunks = chunkLens 1048576 := by
         simp [test_download, generate]
       rw [h, chunkLens_one_mib]
       norm_num)⟩

/-! ## Claim C10: negative size_mb -/

/-- C10: for every negative `size_mb`, the generator's loop condition fails
immediately, so no bytes are streamed, while the `Content-Length` header is
the string form of the negative number `size_mb * 1024 * 1024`, which
therefore differs from the number of bytes actually streamed. -/
theorem download_negative_spec (size_mb : Int) (h : size_mb < 0) :
    (test_download size_mb).chunks = [] ∧
    (test_download size_mb).content_length =
      toString (size_mb * 1024 * 1024) ∧
    size_mb * 1024 * 1024 < 0 ∧
    size_mb * 1024 * 1024 ≠ ((test_download size_mb).chunks.sum : Int) := by
  have h0 : (size_mb * 1024 * 1024).toNat = 0 := by omega
  have hch : (test_download size_mb).chunks = [] := by
    simp [test_download, generate, h0, chunkLens_zero]
  refine ⟨hch, rfl, by omega, ?_⟩
  rw [hch]
  simp only [List.sum_nil, Nat.cast_zero]
  omega

/-- Witness for C10 at `size_mb = -1`. -/
theorem download_negative_spec_witness :
    (test_download (-1 : Int)).chunks = [] ∧
    (test_download (-1 : Int)).content_length =
      toString ((-1 : Int) * 1024 * 1024) ∧
    (-1 : Int) * 1024 * 1024 < 0 ∧
    (-1 : Int) * 1024 * 1024 ≠ ((test_download (-1 : Int)).chunks.sum : Int) :=
  download_negative_spec (-1) (by norm_num)

/-! ## Claim C6: upload accounting -/

/-- C6: for every finite inbound byte stream, `test_upload` reads the stream
to completion in chunks of at most 262144 bytes, reports `size_bytes` equal
to the exact total read and `size_mb` equal to that total divided by
1048576 rounded to two decimal places, carries no server-computed speed
(its fields are exactly `size_bytes`, `size_mb`, `server_timestamp`,
`note`), and a 5242880-byte stream yields `size_bytes = 5242880` and
`size_mb = 5`. -/
theorem upload_spec (n : Nat) (ts : ℚ) :
    ((test_upload n ts).size_bytes = n) ∧
    (∀ c ∈ chunkLens n, c ≤ 262144) ∧
    (test_upload n ts =
      { size_bytes := n, size_mb := pyRound2 ((n : ℚ) / 1048576),
        server_timestamp := ts, note := uploadNote }) ∧
    ((test_upload 5242880 ts).size_bytes = 5242880) ∧
    ((test_upload 5242880 ts).size_mb = 5) := by
  have hb : ∀ m : Nat, (test_upload m ts).size_bytes = m := by
    intro m
    simp [test_upload, chunkLens_sum]
  have hmb : ∀ m : Nat,
      (test_upload m ts).size_mb = pyRound2 ((m : ℚ) / 1048576) := by
    intro m
    simp only [test_upload, chunkLens_sum]
    norm_num
  refine ⟨hb n, ?_, ?_, hb 5242880, ?_⟩
  · intro c hc
    have := chunkLens_le n c hc
    omega
  · simp only [test_upload, chunkLens_sum]
    norm_num
  · rw [hmb 5242880]
    have h5 : ((5242880 : Nat) : ℚ) / 1048576 = 5 := by norm_num
    rw [h5]
    norm_num [pyRound2, roundHalfEven]

/-- Witness for C6 at a 1 MiB stream: the chunk-size hypothesis is
discharged at the concrete read length 262144. -/
theorem upload_spec_witness :
    (test_upload 1048576 0).size_bytes = 1048576 ∧ 262144 ≤ 262144 :=
  ⟨(upload_spec 1048576 0).1,
   (upload_spec 1048576 0).2.1 262144 (by rw [chunkLens_one_mib]; norm_num)⟩

/-! ## Claim C7: compute_speed -/

/-- C7 (spec-modelled): `compute_speed(size_mb, duration_sec)` returns
`(size_mb * 8) / duration_sec`, and for every `duration_sec ≤ 0` it returns
`0`; in particular `compute_speed 10 0 = 0` and `compute_speed 10 8 = 10`. -/
theorem compute_speed_spec (s d : ℚ) :
    (d ≤ 0 → compute_speed s d = 0) ∧
    (0 < d → compute_speed s d = s * 8 / d) ∧
    compute_speed 10 0 = 0 ∧ compute_speed 10 8 = 10 := by
  refine ⟨fun h => by simp [compute_speed, h], fun h => ?_, ?_, ?_⟩
  · rw [compute_speed, if_neg (not_le.mpr h)]
  · norm_num [compute_speed]
  · norm_num [compute_speed]

/-- Witness for C7: both guard hypotheses discharged at concrete inputs. -/
theorem compute_speed_spec_witness :
    compute_speed 10 0 = 0 ∧ compute_speed 10 8 = 10 * 8 / 8 :=
  ⟨(compute_speed_spec 10 0).1 (by norm_num),
   (compute_speed_spec 10 8).2.1 (by norm_num)⟩

/-! ## Claim C9: missing upload body -/

/-- Counterexample to C9: a POST whose parsed body is missing the required
`file` field is rejected by FastAPI's validation with HTTP 422, and a body
that fails multipart parsing is rejected with HTTP 400 -- in neither case
an HTTP 200 reporting `size_bytes = 0`. -/
theorem upload_missing_body_counterexample :
    (upload_route .missingFile 0).status = 422 ∧
    (upload_route .missingFile 0).status ≠ 200 ∧
    (upload_route .missingFile 0).body = none ∧
    (upload_route .malformed 0).status = 400 ∧
    (upload_route .malformed 0).status ≠ 200 ∧
    (upload_route .malformed 0).body = none := by
  refine ⟨rfl, ?_, rfl, rfl, ?_, rfl⟩
  · norm_num [upload_route]
  · norm_num [upload_route]

/-- C9 as amended: a well-formed upload always yields HTTP 200, and an
empty (zero-byte) uploaded file reports `size_bytes = 0`; a parsed request
missing the required `file` field is instead rejected with HTTP 422 by
framework validation, and a body that fails multipart parsing with
HTTP 400 -- neither error path returns 200 with `size_bytes = 0`. -/
theorem upload_route_spec (ts : ℚ) (n : Nat) :
    ((upload_route (.file n) ts).status = 200) ∧
    ((upload_route (.file 0) ts).body = some (test_upload 0 ts)) ∧
    ((test_upload 0 ts).size_bytes = 0) ∧
    ((upload_route .missingFile ts).status = 422) ∧
    ((upload_route .malformed ts).status = 400) := by
  refine ⟨rfl, rfl, ?_, rfl, rfl⟩
  simp [test_upload, chunkLens_zero]

/-! ## Claim C3: client IP resolution -/

/-- Counterexample to C3: an `X-Forwarded-For` header that is present but
empty is falsy in Python, so the code keeps the peer address, while the
claim's override rule would resolve to the empty first token. -/
theorem resolve_client_ip_counterexample :
    resolve_client_ip "10.0.0.7" (some "") = "10.0.0.7" ∧
    firstForwardedToken "" = "" ∧
    "10.0.0.7" ≠ "" := by
  refine ⟨by decide, by decide, by decide⟩

/-- C3 as amended: the resolved client IP is the transport-layer peer
address, overridden by the first comma-separated token (trimmed of
surrounding whitespace) of the `X-Forwarded-For` header whenever that
header is present **and nonempty**; in particular the header value
`"203.0.113.5, 10.0.0.1"` resolves to `"203.0.113.5"`. -/
theorem resolve_client_ip_spec :
    (∀ peer, resolve_client_ip peer none = peer) ∧
    (∀ peer f, f ≠ "" →
      resolve_client_ip peer (some f) = firstForwardedToken f) ∧
    (∀ peer, resolve_client_ip peer (some "203.0.113.5, 10.0.0.1") =
      "203.0.113.5") := by
  refine ⟨fun peer => rfl, ?_, ?_⟩
  · intro peer f hf
    simp only [resolve_client_ip, if_neg hf, firstForwardedToken]
    have hhead := splitChar_headD ',' f.data f.data
    rw [hhead]
  · intro peer
    show (if ("203.0.113.5, 10.0.0.1" : String) = "" then peer
      else String.mk (pyStrip
        ((splitChar ',' "203.0.113.5, 10.0.0.1".data).headD
          "203.0.113.5, 10.0.0.1".data))) = "203.0.113.5"
    rw [if_neg (by decide)]
    decide

/-- Witness for C3's amended theorem: the nonemptiness hypothesis
discharged at a concrete forwarding chain. -/
theorem resolve_client_ip_spec_witness :
    resolve_client_ip "172.16.9.9" (some " 198.51.100.17 ,10.1.1.1") =
      firstForwardedToken " 198.51.100.17 ,10.1.1.1" :=
  resolve_client_ip_spec.2.1 "172.16.9.9" " 198.51.100.17 ,10.1.1.1"
    (by decide)

/-! ## Claim C4: unparsable addresses -/

/-- C4: for every input string that does not parse as an IPv4 or IPv6
literal, `is_private_ip` returns `false` (the `ValueError` is caught and
no exception escapes, which the embedding renders by totality). -/
theorem unparsable_ip_not_private (s : String)
    (h : ip_address s = none) : is_private_ip s = false := by
  unfold is_private_ip
  rw [h]

/-- Witness for C4 at two concrete unparsable strings: a garbage dotted
quad and a scoped IPv6 literal carrying a `/` (which CPython rejects
before scope-id splitting). -/
theorem unparsable_ip_not_private_witness :
    (ip_address "999.999.999.999" = none ∧
      is_private_ip "999.999.999.999" = false) ∧
    (ip_address "fe80::1%eth0/64" = none ∧
      is_private_ip "fe80::1%eth0/64" = false) :=
  ⟨⟨by decide, unparsable_ip_not_private "999.999.999.999" (by decide)⟩,
   ⟨by decide, unparsable_ip_not_private "fe80::1%eth0/64" (by decide)⟩⟩

/-! ## Claim C8: private and public ranges -/

/-- Bridge lemma: an IPv4 value in one of the claimed private blocks
(RFC1918, loopback, link-local) is private under the CPython registry. -/
theorem ipv4IsPrivate_of_claimed (v : Nat)
    (h : (inNet4 v 0x0A000000 8 || inNet4 v 0xAC100000 12 ||
      inNet4 v 0xC0A80000 16 || inNet4 v 0x7F000000 8 ||
      inNet4 v 0xA9FE0000 16) = true) :
    ipv4IsPrivate v = true := by
  simp only [inNet4, ipv4IsPrivate, Bool.or_eq_true, Bool.and_eq_true,
    Bool.not_eq_true', Bool.or_eq_false_iff, beq_iff_eq,
    beq_eq_false_iff_ne] at h ⊢
  norm_num at h ⊢
  omega

/-- Bridge lemma: an IPv6 value in the claimed loopback, link-local or
unique-local blocks is private under the CPython registry. -/
theorem ipv6IsPrivate_of_claimed (v : Nat)
    (h : (inNet6 v 1 128 || inNet6 v (0xFE80 * 2 ^ 112) 10 ||
      inNet6 v (0xFC00 * 2 ^ 112) 7) = true) :
    ipv6IsPrivate v = true := by
  simp only [inNet6, Bool.or_eq_true, beq_iff_eq] at h
  norm_num at h
  unfold ipv6IsPrivate
  split
  · rename_i hm
    simp only [beq_iff_eq] at hm
    norm_num at hm
    omega
  · simp only [inNet6, Bool.or_eq_true, Bool.and_eq_true, Bool.not_eq_true',
      Bool.or_eq_false_iff, beq_iff_eq, beq_eq_false_iff_ne]
    norm_num
    omega

/-- Bridge lemma: a carrier-grade NAT IPv4 value is not private under the
CPython registry. -/
theorem ipv4IsPrivate_cgnat_false (v : Nat)
    (h : inNet4 v 0x64400000 10 = true) : ipv4IsPrivate v = false := by
  simp only [inNet4, beq_iff_eq] at h
  norm_num at h
  rw [Bool.eq_false_iff]
  intro habs
  simp only [ipv4IsPrivate, inNet4, Bool.or_eq_true, Bool.and_eq_true,
    Bool.not_eq_true', Bool.or_eq_false_iff, beq_iff_eq,
    beq_eq_false_iff_ne] at habs
  norm_num at habs
  omega

/-- Bridge lemma: a globally routable IPv4 value is not private. -/
theorem ipv4IsPrivate_routable_false (v : Nat)
    (h : globallyRoutable (.v4 v) = true) : ipv4IsPrivate v = false := by
  simp only [globallyRoutable, inNet4, Bool.and_eq_true, Bool.not_eq_true',
    Bool.or_eq_false_iff, beq_eq_false_iff_ne, beq_iff_eq] at h
  norm_num at h
  rw [Bool.eq_false_iff]
  intro habs
  simp only [ipv4IsPrivate, inNet4, Bool.or_eq_true, Bool.and_eq_true,
    Bool.not_eq_true', Bool.or_eq_false_iff, beq_iff_eq,
    beq_eq_false_iff_ne] at habs
  norm_num at habs
  omega

/-- Bridge lemma: a globally routable IPv6 value is not private. -/
theorem ipv6IsPrivate_routable_false (v : Nat)
    (h : globallyRoutable (.v6 v) = true) : ipv6IsPrivate v = false := by
  simp only [globallyRoutable, inNet6, Bool.and_eq_true, Bool.not_eq_true',
    Bool.or_eq_false_iff, beq_eq_false_iff_ne, beq_iff_eq] at h
  norm_num at h
  rw [Bool.eq_false_iff]
  intro habs
  unfold ipv6IsPrivate at habs
  split at habs
  · rename_i hm
    simp only [beq_iff_eq] at hm
    norm_num at hm
    omega
  · simp only [inNet6, Bool.or_eq_true, Bool.and_eq_true, Bool.not_eq_true',
      Bool.or_eq_false_iff, beq_iff_eq, beq_eq_false_iff_ne] at habs
    norm_num at habs
    omega

/-- Counterexample to C8: `100.64.0.1` lies in the carrier-grade NAT block
100.64.0.0/10, which the claim lists among the private ranges, yet
`is_private_ip` returns `false` for it (CPython's registry deliberately
excludes 100.64.0.0/10 from `is_private`). -/
theorem cgnat_counterexample :
    ip_address "100.64.0.1" = some (.v4 0x64400001) ∧
    inCGNAT (.v4 0x64400001) = true ∧
    is_private_ip "100.64.0.1" = false := by
  refine ⟨by decide, by decide, by decide⟩

/-- C8 as amended: every string parsing into the RFC1918, loopback,
link-local or IPv6 unique-local ranges is reported private; carrier-grade
NAT addresses (100.64.0.0/10) are reported **not** private; and every
globally routable address is reported not private. -/
theorem is_private_ip_ranges (s : String) (a : IPAddr)
    (h : ip_address s = some a) :
    (claimedPrivateRange a = true → is_private_ip s = true) ∧
    (inCGNAT a = true → is_private_ip s = false) ∧
    (globallyRoutable a = true → is_private_ip s = false) := by
  have hs : is_private_ip s = addrIsPrivate a := by
    unfold is_private_ip
    rw [h]
  rw [hs]
  cases a with
  | v4 v =>
    refine ⟨fun hc => ?_, fun hc => ?_, fun hc => ?_⟩
    · exact ipv4IsPrivate_of_claimed v (by simpa [claimedPrivateRange] using hc)
    · exact ipv4IsPrivate_cgnat_false v (by simpa [inCGNAT] using hc)
    · exact ipv4IsPrivate_routable_false v hc
  | v6 v =>
    refine ⟨fun hc => ?_, fun hc => ?_, fun hc => ?_⟩
    · exact ipv6IsPrivate_of_claimed v (by simpa [claimedPrivateRange] using hc)
    · simp [inCGNAT] at hc
    · exact ipv6IsPrivate_routable_false v hc

/-- Witness for C8's amended theorem at three concrete addresses: an
RFC1918 address, a carrier-grade NAT address and a well-known public
address. -/
theorem is_private_ip_ranges_witness :
    is_private_ip "10.1.2.3" = true ∧
    is_private_ip "100.64.7.7" = false ∧
    is_private_ip "93.184.216.34" = false :=
  ⟨(is_private_ip_ranges "10.1.2.3" (.v4 0x0A010203) (by decide)).1
      (by decide),
   (is_private_ip_ranges "100.64.7.7" (.v4 0x64400707) (by decide)).2.1
      (by decide),
   (is_private_ip_ranges "93.184.216.34" (.v4 0x5DB8D822) (by decide)).2.2
      (by decide)⟩

/-! ## Claim C5: private client IP path -/

/-- Counterexample to C5: for a private resolved client IP the code performs
no external call at all -- in particular it never attempts an "echo my IP"
discovery -- and directly reports `public_ip = None` with the default
location. -/
theorem network_private_ip_counterexample :
    ((network_info "srv" "10.0.0.2" "192.168.1.5" none
        (fun _ => GeoOutcome.exn)).2 = []) ∧
    (ExtCall.echoIP ∉ (network_info "srv" "10.0.0.2" "192.168.1.5" none
        (fun _ => GeoOutcome.exn)).2) ∧
    ((network_info "srv" "10.0.0.2" "192.168.1.5" none
        (fun _ => GeoOutcome.exn)).1.body.client.public_ip = none) ∧
    ((network_info "srv" "10.0.0.2" "192.168.1.5" none
        (fun _ => GeoOutcome.exn)).1.body.client.location = defaultLocation) ∧
    (is_private_ip "192.168.1.5" = true) := by
  refine ⟨by decide, by decide, by decide, by decide, by decide⟩

/-- C5 as amended: whenever the resolved client IP is private, the
network-info operation sets `public_ip` to `None` directly, makes no
external call (no echo-IP discovery and no geolocation), returns the
default "Unknown" location, and still answers HTTP 200. -/
theorem network_private_ip_defaults (hostname server_ip peer : String)
    (xff : Option String) (geo : String → GeoOutcome)
    (h : is_private_ip (resolve_client_ip peer xff) = true) :
    ((network_info hostname server_ip peer xff geo).1.status = 200) ∧
    ((network_info hostname server_ip peer xff geo).1.body.client.public_ip
      = none) ∧
    ((network_info hostname server_ip peer xff geo).1.body.client.location
      = defaultLocation) ∧
    ((network_info hostname server_ip peer xff geo).2 = []) := by
  simp [network_info, get_network_details, h]

/-- Witness for C5's amended theorem at a concrete private address. -/
theorem network_private_ip_defaults_witness :
    is_private_ip (resolve_client_ip "172.16.0.30" none) = true ∧
    ((network_info "h" "10.0.0.9" "172.16.0.30" none
        (fun _ => GeoOutcome.exn)).1.body.client.public_ip = none) ∧
    ((network_info "h" "10.0.0.9" "172.16.0.30" none
        (fun _ => GeoOutcome.exn)).2 = []) :=
  ⟨by decide,
   (network_private_ip_defaults "h" "10.0.0.9" "172.16.0.30" none
      (fun _ => GeoOutcome.exn) (by decide)).2.1,
   (network_private_ip_defaults "h" "10.0.0.9" "172.16.0.30" none
      (fun _ => GeoOutcome.exn) (by decide)).2.2.2⟩

/-! ## Claim C2: geolocation acceptance and degradation -/

/-- C2: for a public resolved client IP, the endpoint answers HTTP 200 with
a `NetworkInfo` body; the geolocation result is used only when the service
reports `status = "success"` (a non-default location implies a successful
response), and on an exception or any other status the default
"Unknown"/"Unknown"/"Unknown" location is kept. -/
theorem network_public_ip_spec (hostname server_ip peer : String)
    (xff : Option String) (geo : String → GeoOutcome)
    (h : is_private_ip (resolve_client_ip peer xff) = false) :
    ((network_info hostname server_ip peer xff geo).1.status = 200) ∧
    ((geo (resolve_client_ip peer xff) = .exn ∨
      (∃ r, geo (resolve_client_ip peer xff) = .resp r ∧
        r.status ≠ some "success")) →
      (network_info hostname server_ip peer xff geo).1.body.client.location
        = defaultLocation) ∧
    ((network_info hostname server_ip peer xff geo).1.body.client.location
        ≠ defaultLocation →
      ∃ r, geo (resolve_client_ip peer xff) = .resp r ∧
        r.status = some "success") := by
  by_cases hc : resolve_client_ip peer xff = ""
  · have h0 : is_private_ip "" = false := by decide
    simp [network_info, get_network_details, hc, h0]
  · cases hg : geo (resolve_client_ip peer xff) with
    | exn =>
      refine ⟨by simp [network_info, get_network_details, h, hc, hg], ?_, ?_⟩
      · intro _
        simp [network_info, get_network_details, h, hc, hg]
      · intro habs
        exact absurd (by simp [network_info, get_network_details, h, hc, hg])
          habs
    | resp r =>
      by_cases hstat : r.status = some "success"
      · refine ⟨by simp [network_info, get_network_details, h, hc, hg], ?_,
          fun _ => ⟨r, rfl, hstat⟩⟩
        rintro (h1 | ⟨r2, hr2, hs2⟩)
        · exact absurd h1 (by simp)
        · cases hr2
          exact absurd hstat hs2
      · refine ⟨by simp [network_info, get_network_details, h, hc, hg, hstat],
          ?_, ?_⟩
        · intro _
          simp [network_info, get_network_details, h, hc, hg, hstat]
        · intro habs
          exact absurd
            (by simp [network_info, get_network_details, h, hc, hg, hstat])
            habs

/-- Witness for C2 at a public address with a failing geolocation lookup:
the location stays at the default and the status is 200. -/
theorem network_public_ip_spec_witness :
    is_private_ip (resolve_client_ip "93.184.216.40" none) = false ∧
    ((network_info "h" "10.0.0.9" "93.184.216.40" none
        (fun _ => GeoOutcome.exn)).1.status = 200) ∧
    ((network_info "h" "10.0.0.9" "93.184.216.40" none
        (fun _ => GeoOutcome.exn)).1.body.client.location
      = defaultLocation) :=
  ⟨by decide,
   (network_public_ip_spec "h" "10.0.0.9" "93.184.216.40" none
      (fun _ => GeoOutcome.exn) (by decide)).1,
   (network_public_ip_spec "h" "10.0.0.9" "93.184.216.40" none
      (fun _ => GeoOutcome.exn) (by decide)).2.1 (Or.inl rfl)⟩
